import Mathlib

/-!
Verification of the astro-scope analysis pipeline.

Shallow embedding of the core analysis pipeline of the astro-scope
repository (`lib/data_processing.py` and `lib/analysis.py`), together with
theorems settling the specification's claims about it.

Modelling conventions:
* Python floats are modelled as exact rationals (`ℚ`); a float operation
  whose result is not a finite number (NaN, e.g. from `0/0`, or a pandas
  missing value) is modelled by `none : Option ℚ`.
* A Python function that may `return None` is modelled as returning an
  `Option` value, with `none` standing for the `None` return.
* DataFrames are modelled as lists of records (row-wise) or lists of
  values (column-wise), as each function consumes them.
-/

namespace AstroScope

/-- Division as it appears in the pipeline's normalizations: `a / b` when
`b ≠ 0`, and `none` (the model of the non-finite float NaN) when `b = 0`.
In every use below the numerator is also `0` whenever `b = 0`, so `none`
faithfully models the float result `0/0 = NaN`. -/
def qdiv? (a b : ℚ) : Option ℚ := if b = 0 then none else some (a / b)

/-- Binary minimum on `ℚ`, written out so that it evaluates by kernel
reduction. -/
def qmin (a b : ℚ) : ℚ := if a ≤ b then a else b

/-- Binary maximum on `ℚ`, written out so that it evaluates by kernel
reduction. -/
def qmax (a b : ℚ) : ℚ := if a ≤ b then b else a

theorem qmin_le_left (a b : ℚ) : qmin a b ≤ a := by
  unfold qmin; split
  · exact le_refl a
  · exact le_of_not_le (by assumption)

theorem qmin_le_right (a b : ℚ) : qmin a b ≤ b := by
  unfold qmin; split
  · assumption
  · exact le_refl b

theorem le_qmax_left (a b : ℚ) : a ≤ qmax a b := by
  unfold qmax; split
  · assumption
  · exact le_refl a

theorem le_qmax_right (a b : ℚ) : b ≤ qmax a b := by
  unfold qmax; split
  · exact le_refl b
  · exact le_of_not_le (by assumption)

/-- Minimum of a series of rationals, as `pandas.Series.min`: `none` on the
empty series. -/
def listMin? : List ℚ → Option ℚ
  | [] => none
  | x :: xs => some (xs.foldl qmin x)

/-- Maximum of a series of rationals, as `pandas.Series.max`: `none` on the
empty series. -/
def listMax? : List ℚ → Option ℚ
  | [] => none
  | x :: xs => some (xs.foldl qmax x)

theorem foldl_qmin_le_init (xs : List ℚ) (x : ℚ) : xs.foldl qmin x ≤ x := by
  induction xs generalizing x with
  | nil => exact le_refl x
  | cons z zs ih => exact le_trans (ih (qmin x z)) (qmin_le_left x z)

theorem foldl_qmin_le_mem (xs : List ℚ) (x : ℚ) :
    ∀ y ∈ xs, xs.foldl qmin x ≤ y := by
  induction xs generalizing x with
  | nil => intro y hy; cases hy
  | cons z zs ih =>
    intro y hy
    rcases List.mem_cons.mp hy with rfl | hy2
    · exact le_trans (foldl_qmin_le_init zs (qmin x y)) (qmin_le_right x y)
    · exact ih (qmin x z) y hy2

theorem listMin?_le {l : List ℚ} {m : ℚ} (h : listMin? l = some m) :
    ∀ y ∈ l, m ≤ y := by
  cases l with
  | nil => cases h
  | cons x xs =>
    intro y hy
    have hm : m = xs.foldl qmin x := by
      simpa [listMin?] using h.symm
    subst hm
    rcases List.mem_cons.mp hy with rfl | hy2
    · exact foldl_qmin_le_init xs y
    · exact foldl_qmin_le_mem xs x y hy2

theorem init_le_foldl_qmax (xs : List ℚ) (x : ℚ) : x ≤ xs.foldl qmax x := by
  induction xs generalizing x with
  | nil => exact le_refl x
  | cons z zs ih => exact le_trans (le_qmax_left x z) (ih (qmax x z))

theorem mem_le_foldl_qmax (xs : List ℚ) (x : ℚ) :
    ∀ y ∈ xs, y ≤ xs.foldl qmax x := by
  induction xs generalizing x with
  | nil => intro y hy; cases hy
  | cons z zs ih =>
    intro y hy
    rcases List.mem_cons.mp hy with rfl | hy2
    · exact le_trans (le_qmax_right x y) (init_le_foldl_qmax zs (qmax x y))
    · exact ih (qmax x z) y hy2

theorem le_listMax? {l : List ℚ} {m : ℚ} (h : listMax? l = some m) :
    ∀ y ∈ l, y ≤ m := by
  cases l with
  | nil => cases h
  | cons x xs =>
    intro y hy
    have hm : m = xs.foldl qmax x := by
      simpa [listMax?] using h.symm
    subst hm
    rcases List.mem_cons.mp hy with rfl | hy2
    · exact init_le_foldl_qmax xs y
    · exact mem_le_foldl_qmax xs x y hy2

theorem listMin?_eq_none_iff {l : List ℚ} : listMin? l = none ↔ l = [] := by
  cases l <;> simp [listMin?]

theorem listMax?_eq_none_iff {l : List ℚ} : listMax? l = none ↔ l = [] := by
  cases l <;> simp [listMax?]

/-- One cleaned asteroid record, as consumed by `calculate_risk_score` in
`lib/analysis.py`: after the Cleaner every numeric signal is populated and
the hazard flag is a strict boolean. -/
structure CleanRec where
  diameter_mean_km : ℚ
  relative_velocity_km_s : ℚ
  miss_distance_km : ℚ
  is_potentially_hazardous : Bool
  deriving DecidableEq, Repr

/-- Categorical risk levels, the `labels` list handed to `pd.cut` on line 72
of `lib/analysis.py`. -/
inductive RiskLevel where
  | veryLow
  | low
  | medium
  | high
  | veryHigh
  deriving DecidableEq, Repr

/-- Translation of `pd.cut(risk_score, bins=[0, 0.2, 0.4, 0.6, 0.8, 1.0],
labels=[...])` (lines 69-73 of `lib/analysis.py`).  With pandas defaults
(`right=True`, `include_lowest=False`) each bin is left-open and
right-closed: `(0, 0.2], (0.2, 0.4], (0.4, 0.6], (0.6, 0.8], (0.8, 1.0]`.
A value at or below `0`, or above `1`, falls in no bin and gets NaN
(`none`). -/
def riskLevelOf (q : ℚ) : Option RiskLevel :=
  if 0 < q ∧ q ≤ 1/5 then some .veryLow
  else if 1/5 < q ∧ q ≤ 2/5 then some .low
  else if 2/5 < q ∧ q ≤ 3/5 then some .medium
  else if 3/5 < q ∧ q ≤ 4/5 then some .high
  else if 4/5 < q ∧ q ≤ 1 then some .veryHigh
  else none

/-- A scored record: the input record with the `risk_score` and
`risk_level` columns appended by `calculate_risk_score`.  Both are
`Option`s because an NaN produced by a degenerate normalization range
propagates into them. -/
structure ScoredRec extends CleanRec where
  risk_score : Option ℚ
  risk_level : Option RiskLevel
  deriving DecidableEq, Repr

/-- Column minimum of a cleaned frame, `scored_df[col].min()`. -/
def colMin? (f : CleanRec → ℚ) (df : List CleanRec) : Option ℚ :=
  listMin? (df.map f)

/-- Column maximum of a cleaned frame, `scored_df[col].max()`. -/
def colMax? (f : CleanRec → ℚ) (df : List CleanRec) : Option ℚ :=
  listMax? (df.map f)

/-- Min-max normalization of one value against the batch range, as on lines
44-52 of `lib/analysis.py`: `(x - lo) / (hi - lo)`.  The `none` result
models the NaN produced when the range is degenerate (`hi = lo`; then the
numerator `x - lo` is `0` as well, so the float result is `0/0 = NaN`). -/
def normTerm (x lo hi : ℚ) : Option ℚ := qdiv? (x - lo) (hi - lo)

/-- Scoring of one record given the batch minima and maxima
(`calculate_risk_score`, `lib/analysis.py` lines 44-73): the weighted
composite `0.4·diameter_norm + 0.3·velocity_norm + 0.3·miss_dist_norm`
with the miss-distance term inverted, a flat `+0.2` bump when the record
is flagged hazardous, a clip from above at `1.0`, and the `pd.cut`
binning.  `none` propagates exactly as NaN does through float arithmetic,
`Series.clip` and `pd.cut`. -/
def scoreOne (dlo dhi vlo vhi mlo mhi : ℚ) (r : CleanRec) : ScoredRec :=
  let dn := normTerm r.diameter_mean_km dlo dhi
  let vn := normTerm r.relative_velocity_km_s vlo vhi
  let mn := (normTerm r.miss_distance_km mlo mhi).map (fun t => 1 - t)
  let raw := do
    let a ← dn
    let b ← vn
    let c ← mn
    pure (2/5 * a + 3/10 * b + 3/10 * c)
  let bumped := if r.is_potentially_hazardous then raw.map (fun s => s + 1/5) else raw
  let clipped := bumped.map (fun s => qmin s 1)
  { toCleanRec := r, risk_score := clipped, risk_level := clipped.bind riskLevelOf }

/-- The Risk Scorer, `calculate_risk_score` of `lib/analysis.py`.  An empty
frame is answered with `None` after printing an error (lines 38-40);
otherwise the batch minima and maxima are taken and every record is scored
against them.  The fallthrough branch is unreachable: a series min/max is
`none` only on the empty series, already excluded by the guard. -/
def calculate_risk_score (df : List CleanRec) : Option (List ScoredRec) :=
  if df.isEmpty then none else
    match colMin? CleanRec.diameter_mean_km df, colMax? CleanRec.diameter_mean_km df,
      colMin? CleanRec.relative_velocity_km_s df, colMax? CleanRec.relative_velocity_km_s df,
      colMin? CleanRec.miss_distance_km df, colMax? CleanRec.miss_distance_km df with
    | some dlo, some dhi, some vlo, some vhi, some mlo, some mhi =>
      some (df.map (scoreOne dlo dhi vlo vhi mlo mhi))
    | _, _, _, _, _, _ => none

/-- Closed form of the raw composite `calculate_risk_score` gives a
record when the three batch ranges are non-degenerate, the
`0.4·diameter_norm + 0.3·velocity_norm + 0.3·miss_dist_norm` of line 60
of `lib/analysis.py`.  Stated with total division, which agrees with
`normTerm` whenever the range is nonzero. -/
def rawOf (dlo dhi vlo vhi mlo mhi : ℚ) (r : CleanRec) : ℚ :=
  2/5 * ((r.diameter_mean_km - dlo) / (dhi - dlo)) +
  3/10 * ((r.relative_velocity_km_s - vlo) / (vhi - vlo)) +
  3/10 * (1 - (r.miss_distance_km - mlo) / (mhi - mlo))

/-- First record of the specification's end-to-end scenario (§8 of the
spec): diameter 0.1 km, velocity 5 km/s, miss distance 1e6 km, not
hazardous. -/
def sampleRec : CleanRec :=
  { diameter_mean_km := 1/10, relative_velocity_km_s := 5,
    miss_distance_km := 1000000, is_potentially_hazardous := false }

/-- The specification's end-to-end scenario batch (§8 of the spec): three
records with diameters `{0.1, 0.5, 1.0}` km, velocities `{5, 15, 30}`
km/s, miss distances `{1e6, 5e6, 9e6}` km, none hazardous. -/
def sampleBatch : List CleanRec :=
  [sampleRec,
   { diameter_mean_km := 1/2, relative_velocity_km_s := 15,
     miss_distance_km := 5000000, is_potentially_hazardous := false },
   { diameter_mean_km := 1, relative_velocity_km_s := 30,
     miss_distance_km := 9000000, is_potentially_hazardous := false }]

/-- The four metric columns `calculate_z_scores` iterates over (the
`columns` list on line 93 of `lib/analysis.py`). -/
inductive Metric where
  | diameter
  | missDistance
  | velocity
  | riskScore
  deriving DecidableEq, Repr

/-- One record as the Anomaly Detector consumes it: a scored record with
the four metric columns populated. -/
structure ARec where
  diameter_mean_km : ℚ
  miss_distance_km : ℚ
  relative_velocity_km_s : ℚ
  risk_score : ℚ
  deriving DecidableEq, Repr

/-- The column of a record a metric name selects. -/
def metricVal : Metric → ARec → ℚ
  | .diameter => ARec.diameter_mean_km
  | .missDistance => ARec.miss_distance_km
  | .velocity => ARec.relative_velocity_km_s
  | .riskScore => ARec.risk_score

/-- The `columns` list of line 93, in source order. -/
def metrics : List Metric := [.diameter, .missDistance, .velocity, .riskScore]

/-- Mean of a series, `pandas.Series.mean`: NaN (`none`) on an empty
series. -/
def mean? (l : List ℚ) : Option ℚ :=
  if l.isEmpty then none else some (l.sum / (l.length : ℚ))

/-- Sample variance of a series: the square of `pandas.Series.std()`
(`ddof=1`).  `none` models the NaN that pandas returns for a series of
fewer than two values (division by `n - 1 = 0`). -/
def sampleVar? (l : List ℚ) : Option ℚ :=
  (mean? l).bind fun m =>
    qdiv? ((l.map (fun x => (x - m) ^ 2)).sum) ((l.length - 1 : ℕ) : ℚ)

/-- Square of the z-score `(value - mean) / std` computed on line 99 of
`lib/analysis.py`.  Working with the square keeps the value rational
(`std` is a square root); the anomaly test `abs(z) > 2` of line 105 is
equivalent to `z² > 4`.  `none` models NaN: a constant column has
`std = 0` and each of its entries equals the mean, so the float
z-score is `0/0 = NaN`; a one-record batch has `std = NaN` already.
The function is only ever applied to a value drawn from `col`, so a zero
variance always meets a zero numerator. -/
def zScoreSq (x : ℚ) (col : List ℚ) : Option ℚ :=
  (mean? col).bind fun m =>
    (sampleVar? col).bind fun v => qdiv? ((x - m) ^ 2) v

/-- An analyzed record: the input record with the four `{col}_zscore`
columns (kept as squared z-scores, see `zScoreSq`) and the `is_anomaly`
flag appended by `calculate_z_scores`. -/
structure ZRec extends ARec where
  diameter_zsq : Option ℚ
  miss_distance_zsq : Option ℚ
  velocity_zsq : Option ℚ
  risk_zsq : Option ℚ
  is_anomaly : Bool
  deriving DecidableEq, Repr

/-- The squared-z-score column of an analyzed record a metric selects. -/
def zsqOf : Metric → ZRec → Option ℚ
  | .diameter => ZRec.diameter_zsq
  | .missDistance => ZRec.miss_distance_zsq
  | .velocity => ZRec.velocity_zsq
  | .riskScore => ZRec.risk_zsq

/-- The anomaly test of line 105, `abs(z_df[z_col]) > 2`, phrased on the
squared z-score as `z² > 4`.  A NaN z-score (`none`) compares false,
exactly as `abs(NaN) > 2` is `False` in pandas, so a NaN never sets
`is_anomaly`. -/
def exceedsTwo (z : Option ℚ) : Bool :=
  match z with
  | none => false
  | some q => decide (4 < q)

/-- Z-scoring of one record against the whole frame (lines 95-105 of
`lib/analysis.py`): one z-score per metric column, then `is_anomaly` is
the disjunction of the four threshold tests. -/
def zOne (df : List ARec) (r : ARec) : ZRec :=
  let zs : Metric → Option ℚ := fun m => zScoreSq (metricVal m r) (df.map (metricVal m))
  { toARec := r,
    diameter_zsq := zs .diameter,
    miss_distance_zsq := zs .missDistance,
    velocity_zsq := zs .velocity,
    risk_zsq := zs .riskScore,
    is_anomaly := metrics.any (fun m => exceedsTwo (zs m)) }

/-- The Anomaly Detector, `calculate_z_scores` of `lib/analysis.py`.  An
empty frame is answered with `None` after printing an error (lines
87-89); any other frame — a single-record frame included — is processed. -/
def calculate_z_scores (df : List ARec) : Option (List ZRec) :=
  if df.isEmpty then none else some (df.map (zOne df))

/-- One analyzed record as the Time-Series Aggregator consumes it: the
day-bucket index key (days numbered consecutively) plus the aggregated
numeric columns. -/
structure TRec where
  date : ℕ
  diameter_mean_km : ℚ
  relative_velocity_km_s : ℚ
  miss_distance_km : ℚ
  risk_score : ℚ
  deriving DecidableEq, Repr

/-- Earliest day of a list of day keys: `none` on the empty list. -/
def dayMin? : List ℕ → Option ℕ
  | [] => none
  | x :: xs => some (xs.foldl min x)

/-- Latest day of a list of day keys: `none` on the empty list. -/
def dayMax? : List ℕ → Option ℕ
  | [] => none
  | x :: xs => some (xs.foldl max x)

/-- One row of the daily aggregate table `generate_time_series_data`
produces. -/
structure DailyRow where
  day : ℕ
  asteroid_count : ℕ
  avg_diameter_km : Option ℚ
  avg_velocity_km_s : Option ℚ
  avg_miss_distance_km : Option ℚ
  avg_risk_score : Option ℚ
  high_risk_count : ℕ
  deriving DecidableEq, Repr

/-- The aggregate row for day `d` (lines 123-141 of `lib/analysis.py`):
`resample('D').size()` counts the records of the day, the four
`resample('D')[col].mean()` columns are NaN (`none`) on a day with no
records, and `high_risk_count` counts the day's records with
`risk_score > 0.6` (line 131; the `fillna(0)` of line 141 makes the two
count columns `0` rather than NaN on empty days, which the `ℕ`-valued
lengths here already are). -/
def dailyRow (df : List TRec) (d : ℕ) : DailyRow :=
  let todays := df.filter (fun r => r.date == d)
  { day := d,
    asteroid_count := todays.length,
    avg_diameter_km := mean? (todays.map TRec.diameter_mean_km),
    avg_velocity_km_s := mean? (todays.map TRec.relative_velocity_km_s),
    avg_miss_distance_km := mean? (todays.map TRec.miss_distance_km),
    avg_risk_score := mean? (todays.map TRec.risk_score),
    high_risk_count :=
      ((df.filter (fun r => decide ((3 : ℚ)/5 < r.risk_score))).filter
        (fun r => r.date == d)).length }

/-- The Time-Series Aggregator, `generate_time_series_data` of
`lib/analysis.py` (lines 109-141), restricted to the daily columns the
specification's claims are about (each `{col}_7d_avg` companion is a
further per-row rolling mean over this same table).  `resample('D')`
produces one bin per calendar day from the earliest to the latest day of
the index, inclusive, so the output has a row for every day of that
span.  An empty frame is answered with `None` (lines 119-121); the
fallthrough branch is unreachable for a non-empty frame. -/
def generate_time_series_data (df : List TRec) : Option (List DailyRow) :=
  if df.isEmpty then none else
    match dayMin? (df.map TRec.date), dayMax? (df.map TRec.date) with
    | some lo, some hi =>
      some ((List.range (hi - lo + 1)).map (fun k => dailyRow df (lo + k)))
    | _, _ => none

/-- A two-record analyzed batch on days 10 and 12, leaving day 11 inside
the span with no records. -/
def sampleDays : List TRec :=
  [{ date := 10, diameter_mean_km := 1, relative_velocity_km_s := 2,
     miss_distance_km := 3, risk_score := 1 },
   { date := 12, diameter_mean_km := 2, relative_velocity_km_s := 3,
     miss_distance_km := 4, risk_score := 0 }]

/-- The `kilometers` object of `estimated_diameter`: the two optional
diameter bounds. -/
structure DiameterKm where
  estimated_diameter_min : Option ℚ
  estimated_diameter_max : Option ℚ
  deriving DecidableEq, Repr

/-- One entry of `close_approach_data`.  The two doubly-nested numeric
fields are `Option (Option ℚ)`: the outer layer is the presence of the
`miss_distance` / `relative_velocity` key, the inner layer the presence
of the unit key inside it (read with a `0` default on lines 65 and 68 of
`lib/data_processing.py`). -/
structure Approach where
  miss_distance : Option (Option ℚ)
  relative_velocity : Option (Option ℚ)
  close_approach_date : Option ℕ
  deriving DecidableEq, Repr

/-- One nested asteroid entry of the raw NeoWs payload, as
`flatten_asteroid_data` reads it.  A dictionary key the payload omits is
modelled as a `none` field; the identifier strings are modelled
opaquely by numbers. -/
structure RawAsteroid where
  id : Option ℕ
  name : Option ℕ
  is_potentially_hazardous_asteroid : Option Bool
  estimated_diameter_kilometers : Option DiameterKm
  close_approach_data : List Approach
  deriving DecidableEq, Repr

/-- One flat record the Normalizer emits.  A key the source code never
adds to the dictionary (diameter keys without `estimated_diameter`,
approach keys without `close_approach_data`) is modelled as a `none`
field, the same way a present-but-`None` value is. -/
structure FlatRec where
  date : ℕ
  id : Option ℕ
  name : Option ℕ
  is_potentially_hazardous : Bool
  diameter_min_km : Option ℚ
  diameter_max_km : Option ℚ
  diameter_mean_km : Option ℚ
  miss_distance_km : Option ℚ
  relative_velocity_km_h : Option ℚ
  relative_velocity_km_s : Option ℚ
  close_approach_date : Option ℕ
  deriving DecidableEq, Repr

/-- Python truthiness of an optional float as line 59 of
`lib/data_processing.py` uses it: `None` and `0.0` are falsy, any other
float is truthy. -/
def pyTruthy : Option ℚ → Bool
  | none => false
  | some x => decide (x ≠ 0)

/-- Flattening of one nested asteroid entry under one day key: the body
of the inner loop of `flatten_asteroid_data` (`lib/data_processing.py`
lines 48-73).  The hazard flag is read with a `False` default (line 53).
Line 59 computes the mean diameter under Python truthiness
(`if min and max`): the mean is `None` not only when a bound is missing
but also when one of the bounds is the float `0.0`.  The `getD 0` under
the truthiness guard only ever reads a present value. -/
def flatten_one (date : ℕ) (a : RawAsteroid) : FlatRec :=
  let dmin := a.estimated_diameter_kilometers.bind DiameterKm.estimated_diameter_min
  let dmax := a.estimated_diameter_kilometers.bind DiameterKm.estimated_diameter_max
  let dmean :=
    if pyTruthy dmin && pyTruthy dmax then some ((dmin.getD 0 + dmax.getD 0) / 2)
    else none
  let approach := a.close_approach_data.head?
  { date := date,
    id := a.id,
    name := a.name,
    is_potentially_hazardous := a.is_potentially_hazardous_asteroid.getD false,
    diameter_min_km := dmin,
    diameter_max_km := dmax,
    diameter_mean_km := dmean,
    miss_distance_km := approach.bind (fun ap => ap.miss_distance.map (fun k => k.getD 0)),
    relative_velocity_km_h := approach.bind (fun ap => ap.relative_velocity.map (fun k => k.getD 0)),
    relative_velocity_km_s := approach.bind (fun ap => ap.relative_velocity.map (fun k => k.getD 0 / 3600)),
    close_approach_date := approach.bind Approach.close_approach_date }

/-- The Normalizer, `flatten_asteroid_data` of `lib/data_processing.py`:
the `near_earth_objects` map is modelled as an association list from day
keys to asteroid lists, and `none` models a payload without that key,
answered with the empty list (lines 41-43). -/
def flatten_asteroid_data (data : Option (List (ℕ × List RawAsteroid))) : List FlatRec :=
  match data with
  | none => []
  | some neo => neo.foldr (fun p acc => p.2.map (flatten_one p.1) ++ acc) []

/-- The six numeric columns of `clean_dataframe`
(`lib/data_processing.py` lines 119-120). -/
inductive NumCol where
  | diameterMin
  | diameterMax
  | diameterMean
  | missDistance
  | velocityKmH
  | velocityKmS
  deriving DecidableEq, Repr

/-- Median of a series of valid values, `pandas.Series.median`: `none` on
an empty series, the middle value for an odd count, the mean of the two
middle values for an even count. -/
def median? (l : List ℚ) : Option ℚ :=
  let s := l.mergeSort (fun a b => decide (a ≤ b))
  let n := s.length
  if n % 2 = 1 then s[n / 2]?
  else
    match s[n / 2 - 1]?, s[n / 2]? with
    | some a, some b => some ((a + b) / 2)
    | _, _ => none

/-- Cleaning of one numeric column (`clean_dataframe`, lines 122-126 of
`lib/data_processing.py`): `pd.to_numeric(errors='coerce')` turns a
non-numeric entry into NaN — an entry is therefore already `none` here
when it was missing or failed to parse — the column median is taken over
the valid values (pandas skips NaN), and `fillna` replaces every missing
entry with that median.  On an all-missing column the median is itself
missing and `fillna` is a no-op. -/
def cleanColumn (col : List (Option ℚ)) : List (Option ℚ) :=
  let m := median? (col.filterMap id)
  col.map (fun v => match v with | some x => some x | none => m)

/-- The Cleaner, `clean_dataframe` of `lib/data_processing.py`,
column-wise on the six numeric columns. -/
def clean_dataframe (f : NumCol → List (Option ℚ)) : NumCol → List (Option ℚ) :=
  fun c => cleanColumn (f c)

theorem riskLevelOf_veryLow_iff (q : ℚ) :
    riskLevelOf q = some RiskLevel.veryLow ↔ 0 < q ∧ q ≤ 1/5 := by
  unfold riskLevelOf
  split_ifs with h1 h2 h3 h4 h5 <;> simp
  · constructor <;> linarith [h1.1, h1.2]
  · intro a; linarith [h2.1, h2.2]
  · intro a; linarith [h3.1, h3.2]
  · intro a; linarith [h4.1, h4.2]
  · intro a; linarith [h5.1, h5.2]
  · push_neg at h1; intro a; linarith [h1 a]

theorem riskLevelOf_low_iff (q : ℚ) :
    riskLevelOf q = some RiskLevel.low ↔ 1/5 < q ∧ q ≤ 2/5 := by
  unfold riskLevelOf
  split_ifs with h1 h2 h3 h4 h5 <;> simp
  · intro a; linarith [h1.1, h1.2]
  · constructor <;> linarith [h2.1, h2.2]
  · intro a; linarith [h3.1, h3.2]
  · intro a; linarith [h4.1, h4.2]
  · intro a; linarith [h5.1, h5.2]
  · push_neg at h2; intro a; linarith [h2 (by linarith)]

theorem riskLevelOf_medium_iff (q : ℚ) :
    riskLevelOf q = some RiskLevel.medium ↔ 2/5 < q ∧ q ≤ 3/5 := by
  unfold riskLevelOf
  split_ifs with h1 h2 h3 h4 h5 <;> simp
  · intro a; linarith [h1.1, h1.2]
  · intro a; linarith [h2.1, h2.2]
  · constructor <;> linarith [h3.1, h3.2]
  · intro a; linarith [h4.1, h4.2]
  · intro a; linarith [h5.1, h5.2]
  · push_neg at h3; intro a; linarith [h3 (by linarith)]

theorem riskLevelOf_high_iff (q : ℚ) :
    riskLevelOf q = some RiskLevel.high ↔ 3/5 < q ∧ q ≤ 4/5 := by
  unfold riskLevelOf
  split_ifs with h1 h2 h3 h4 h5 <;> simp
  · intro a; linarith [h1.1, h1.2]
  · intro a; linarith [h2.1, h2.2]
  · intro a; linarith [h3.1, h3.2]
  · constructor <;> linarith [h4.1, h4.2]
  · intro a; linarith [h5.1, h5.2]
  · push_neg at h4; intro a; linarith [h4 (by linarith)]

theorem riskLevelOf_veryHigh_iff (q : ℚ) :
    riskLevelOf q = some RiskLevel.veryHigh ↔ 4/5 < q ∧ q ≤ 1 := by
  unfold riskLevelOf
  split_ifs with h1 h2 h3 h4 h5 <;> simp
  · intro a; linarith [h1.1, h1.2]
  · intro a; linarith [h2.1, h2.2]
  · intro a; linarith [h3.1, h3.2]
  · intro a; linarith [h4.1, h4.2]
  · constructor <;> linarith [h5.1, h5.2]
  · push_neg at h5; intro a; linarith [h5 (by linarith)]

theorem riskLevelOf_none_iff (q : ℚ) :
    riskLevelOf q = none ↔ q ≤ 0 ∨ 1 < q := by
  unfold riskLevelOf
  split_ifs with h1 h2 h3 h4 h5 <;> simp
  · constructor <;> linarith [h1.1, h1.2]
  · constructor <;> linarith [h2.1, h2.2]
  · constructor <;> linarith [h3.1, h3.2]
  · constructor <;> linarith [h4.1, h4.2]
  · constructor <;> linarith [h5.1, h5.2]
  · rcases le_or_lt q 0 with h | h
    · exact Or.inl h
    · push_neg at h1 h2 h3 h4 h5
      exact Or.inr (h5 (h4 (h3 (h2 (h1 h)))))

/-- Claim C1, counterexample: a two-record batch whose first record scores
exactly `0.6` is binned `Medium`, not the `High` the claim states, because
`pd.cut` bins are right-closed with the defaults the source uses. -/
theorem C1_cex :
    ((calculate_risk_score
      [{ diameter_mean_km := 1, relative_velocity_km_s := 20,
         miss_distance_km := 100, is_potentially_hazardous := false },
       { diameter_mean_km := 2, relative_velocity_km_s := 10,
         miss_distance_km := 200, is_potentially_hazardous := false }]).map
      (List.map (fun s => (s.risk_score, s.risk_level)))) =
      some [(some (3/5), some RiskLevel.medium), (some (2/5), some RiskLevel.low)] ∧
    RiskLevel.medium ≠ RiskLevel.high := by
  constructor
  · norm_num [calculate_risk_score, colMin?, colMax?, listMin?, listMax?, scoreOne,
      normTerm, qdiv?, qmin, qmax, riskLevelOf]
  · decide

/-- Claim C1 (amended): `risk_level` bins `risk_score` into half-open
intervals of width 0.2 that are open on the left and closed on the right,
`(0, 0.2], (0.2, 0.4], (0.4, 0.6], (0.6, 0.8], (0.8, 1.0]`; a record with
`risk_score = 0.6` gets Medium, one with `0.5999` gets Medium, and one
with `0` falls outside every bin and gets no level (NaN). -/
theorem C1_risk_level_binning :
    (∀ q : ℚ,
      (riskLevelOf q = some RiskLevel.veryLow ↔ 0 < q ∧ q ≤ 1/5) ∧
      (riskLevelOf q = some RiskLevel.low ↔ 1/5 < q ∧ q ≤ 2/5) ∧
      (riskLevelOf q = some RiskLevel.medium ↔ 2/5 < q ∧ q ≤ 3/5) ∧
      (riskLevelOf q = some RiskLevel.high ↔ 3/5 < q ∧ q ≤ 4/5) ∧
      (riskLevelOf q = some RiskLevel.veryHigh ↔ 4/5 < q ∧ q ≤ 1) ∧
      (riskLevelOf q = none ↔ q ≤ 0 ∨ 1 < q)) ∧
    riskLevelOf (3/5) = some RiskLevel.medium ∧
    riskLevelOf (5999/10000) = some RiskLevel.medium ∧
    riskLevelOf 0 = none := by
  refine ⟨fun q => ⟨riskLevelOf_veryLow_iff q, riskLevelOf_low_iff q,
      riskLevelOf_medium_iff q, riskLevelOf_high_iff q,
      riskLevelOf_veryHigh_iff q, riskLevelOf_none_iff q⟩, ?_, ?_, ?_⟩
  · exact (riskLevelOf_medium_iff _).mpr (by norm_num)
  · exact (riskLevelOf_medium_iff _).mpr (by norm_num)
  · exact (riskLevelOf_none_iff _).mpr (Or.inl le_rfl)

/-- Claim C2: the code, evaluated at the failing input — a batch of two
records with identical `diameter_mean_km` — produces `risk_score = NaN`
(`none`) for every record: the degenerate range is not guarded and the
claim's mandated defined result (a zero normalized term) does not hold. -/
theorem C2_degenerate_range_nan :
    ((calculate_risk_score
      [{ diameter_mean_km := 1, relative_velocity_km_s := 10,
         miss_distance_km := 100, is_potentially_hazardous := false },
       { diameter_mean_km := 1, relative_velocity_km_s := 20,
         miss_distance_km := 200, is_potentially_hazardous := false }]).map
      (List.map ScoredRec.risk_score)) = some [none, none] := by
  norm_num [calculate_risk_score, colMin?, colMax?, listMin?, listMax?, scoreOne,
    normTerm, qdiv?, qmin, qmax]

/-- Claim C3, counterexample: on the empty collection the Risk Scorer
returns the absent result `None` — it does not raise any
`EmptyBatchError`; no exception of that name exists in the code. -/
theorem C3_cex : calculate_risk_score [] = none := rfl

/-- Claim C3 (amended): on an empty input collection the Risk Scorer
prints an error message and returns `None` (an absent result) to the
caller, and `None` arises exactly for the empty collection; no
`EmptyBatchError` exception is raised. -/
theorem C3_none_iff_empty :
    ∀ df : List CleanRec, calculate_risk_score df = none ↔ df = [] := by
  intro df
  constructor
  · intro h
    by_contra hne
    obtain ⟨x, xs, rfl⟩ := List.exists_cons_of_ne_nil hne
    simp [calculate_risk_score, colMin?, colMax?, listMin?, listMax?] at h
  · rintro rfl; rfl

/-- Claim C4, counterexample: a batch of exactly one record is processed
by the Anomaly Detector, not rejected — only the empty frame is turned
away, and no `InsufficientDataError` exists in the code. -/
theorem C4_cex :
    (calculate_z_scores
      [{ diameter_mean_km := 1, miss_distance_km := 2,
         relative_velocity_km_s := 3, risk_score := 4 }]).isSome = true := by
  rfl

/-- Claim C4 (amended): the Anomaly Detector rejects only the empty
frame, answering `None` for it; a batch of exactly one record is
processed, with every z-score NaN (`none`, the sample standard deviation
of one value being NaN) and `is_anomaly = False`. -/
theorem C4_singleton_processed :
    (∀ df : List ARec, calculate_z_scores df = none ↔ df = []) ∧
    ∀ r : ARec, calculate_z_scores [r] =
      some [{ toARec := r, diameter_zsq := none, miss_distance_zsq := none,
              velocity_zsq := none, risk_zsq := none, is_anomaly := false }] := by
  constructor
  · intro df
    constructor
    · intro h
      by_contra hne
      obtain ⟨x, xs, rfl⟩ := List.exists_cons_of_ne_nil hne
      simp [calculate_z_scores] at h
    · rintro rfl; rfl
  · intro r
    simp [calculate_z_scores, zOne, zScoreSq, sampleVar?, mean?, qdiv?, metrics,
      metricVal, exceedsTwo]

/-- Claim C6, counterexample: a raw entry with both diameter bounds
present but `estimated_diameter_min = 0.0` is normalized to a `None` mean
diameter, not to the arithmetic mean `(0 + 1)/2` the claim states,
because line 59 of `lib/data_processing.py` tests the bounds with Python
truthiness and the float `0.0` is falsy. -/
theorem C6_cex :
    (flatten_one 0
      { id := none, name := none, is_potentially_hazardous_asteroid := none,
        estimated_diameter_kilometers :=
          some { estimated_diameter_min := some 0, estimated_diameter_max := some 1 },
        close_approach_data := [] }).diameter_mean_km = none ∧
    (flatten_one 0
      { id := none, name := none, is_potentially_hazardous_asteroid := none,
        estimated_diameter_kilometers :=
          some { estimated_diameter_min := some 0, estimated_diameter_max := some 1 },
        close_approach_data := [] }).diameter_mean_km ≠ some ((0 + 1) / 2) := by
  constructor <;> simp [flatten_one, pyTruthy]

/-- Claim C6 (amended): with the `kilometers` object present, the
Normalizer sets `diameter_mean_km` to the arithmetic mean of the two
bounds exactly when both bounds are present and both are nonzero (Python
truthiness); it is null when either bound is missing or is `0.0`, and
the field stays absent when the object itself is missing. -/
theorem C6_diameter_mean_truthiness :
    (∀ (date : ℕ) (idv nm : Option ℕ) (hz : Option Bool)
        (k : DiameterKm) (cad : List Approach) (m : ℚ),
      (flatten_one date
        { id := idv, name := nm, is_potentially_hazardous_asteroid := hz,
          estimated_diameter_kilometers := some k,
          close_approach_data := cad }).diameter_mean_km = some m ↔
      ∃ a b, k.estimated_diameter_min = some a ∧ k.estimated_diameter_max = some b ∧
        a ≠ 0 ∧ b ≠ 0 ∧ m = (a + b) / 2) ∧
    (∀ (date : ℕ) (idv nm : Option ℕ) (hz : Option Bool) (cad : List Approach),
      (flatten_one date
        { id := idv, name := nm, is_potentially_hazardous_asteroid := hz,
          estimated_diameter_kilometers := none,
          close_approach_data := cad }).diameter_mean_km = none) := by
  constructor
  · intro date idv nm hz k cad m
    obtain ⟨kmin, kmax⟩ := k
    cases kmin with
    | none => simp [flatten_one, pyTruthy]
    | some a =>
      cases kmax with
      | none => simp [flatten_one, pyTruthy]
      | some b =>
        by_cases ha : a = 0
        · simp [flatten_one, pyTruthy, ha]
        · by_cases hb : b = 0
          · simp [flatten_one, pyTruthy, ha, hb]
          · simp [flatten_one, pyTruthy, ha, hb, eq_comm]
  · intro date idv nm hz cad
    simp [flatten_one, pyTruthy]

/-- Claim C10: a raw entry without the `is_potentially_hazardous_asteroid`
key is normalized to `is_potentially_hazardous = False`, the `.get`
default of line 53 of `lib/data_processing.py`. -/
theorem C10_missing_hazard_defaults_false (date : ℕ) (a : RawAsteroid)
    (h : a.is_potentially_hazardous_asteroid = none) :
    (flatten_one date a).is_potentially_hazardous = false := by
  simp [flatten_one, h]

/-- Claim C10, witness: the default evaluated at a concrete raw entry
with the hazard flag absent. -/
theorem C10_witness :
    (flatten_one 0
      { id := none, name := none, is_potentially_hazardous_asteroid := none,
        estimated_diameter_kilometers := none,
        close_approach_data := [] }).is_potentially_hazardous = false :=
  C10_missing_hazard_defaults_false 0 _ rfl

theorem list_sum_of_all_eq {l : List ℚ} {c : ℚ} (h : ∀ x ∈ l, x = c) :
    l.sum = l.length * c := by
  induction l with
  | nil => simp
  | cons x xs ih =>
    have hx : x = c := h x (List.mem_cons_self x xs)
    have hxs : xs.sum = xs.length * c := ih (fun y hy => h y (List.mem_cons_of_mem x hy))
    simp only [List.sum_cons, hx, hxs, List.length_cons]
    push_cast
    ring

theorem mean?_of_all_eq {l : List ℚ} {c : ℚ} (hne : l ≠ []) (h : ∀ x ∈ l, x = c) :
    mean? l = some c := by
  unfold mean?
  rw [if_neg (by simpa [List.isEmpty_iff] using hne)]
  have hlen : (l.length : ℚ) ≠ 0 := by
    exact_mod_cast Nat.cast_ne_zero.mpr (List.length_pos.mpr hne).ne.symm
  rw [list_sum_of_all_eq h, mul_comm, mul_div_assoc, div_self hlen, mul_one]

theorem sampleVar?_of_all_eq {l : List ℚ} {c : ℚ} (h2 : 2 ≤ l.length)
    (h : ∀ x ∈ l, x = c) : sampleVar? l = some 0 := by
  have hne : l ≠ [] := by
    intro e; subst e; simp at h2
  unfold sampleVar?
  rw [mean?_of_all_eq hne h]
  have hsum : (l.map (fun x => (x - c) ^ 2)).sum = 0 := by
    have hz : ∀ y ∈ l.map (fun x => (x - c) ^ 2), y = 0 := by
      intro y hy
      obtain ⟨x, hx, rfl⟩ := List.mem_map.mp hy
      rw [h x hx]; ring
    rw [list_sum_of_all_eq hz]; ring
  have hden : ((l.length - 1 : ℕ) : ℚ) ≠ 0 := by
    have h1 : l.length - 1 ≠ 0 := by omega
    exact_mod_cast Nat.cast_ne_zero.mpr h1
  show qdiv? ((l.map (fun x => (x - c) ^ 2)).sum) ((l.length - 1 : ℕ) : ℚ) = some 0
  rw [hsum]
  unfold qdiv?
  rw [if_neg hden]
  simp

theorem zScoreSq_of_all_eq {l : List ℚ} {c : ℚ} (x : ℚ) (h2 : 2 ≤ l.length)
    (h : ∀ y ∈ l, y = c) : zScoreSq x l = none := by
  have hne : l ≠ [] := by
    intro e; subst e; simp at h2
  unfold zScoreSq
  rw [mean?_of_all_eq hne h, sampleVar?_of_all_eq h2 h]
  show qdiv? ((x - c) ^ 2) 0 = none
  simp [qdiv?]

theorem zsqOf_zOne (df : List ARec) (r : ARec) (m : Metric) :
    zsqOf m (zOne df r) = zScoreSq (metricVal m r) (df.map (metricVal m)) := by
  cases m <;> rfl

/-- Claim C5, counterexample: in a two-record batch whose
`diameter_mean_km` values are identical, the diameter z-score is NaN
(`none`) — pandas computes `(value - mean)/0 = 0/0` — and not the `0` the
claim states; the records still end with `is_anomaly = False`. -/
theorem C5_cex :
    ((calculate_z_scores
      [{ diameter_mean_km := 1, miss_distance_km := 2,
         relative_velocity_km_s := 3, risk_score := 4 },
       { diameter_mean_km := 1, miss_distance_km := 4,
         relative_velocity_km_s := 5, risk_score := 6 }]).map
      (List.map (fun z => (z.diameter_zsq, z.is_anomaly)))) =
      some [(none, false), (none, false)] := by
  norm_num [calculate_z_scores, zOne, zScoreSq, sampleVar?, mean?, qdiv?, metrics,
    metricVal, exceedsTwo]

/-- Claim C5 (amended): in a batch of at least two records in which all
values of one metric are identical, that metric's z-score is NaN
(`none`, from the zero sample standard deviation), not `0`; the NaN
comparison `abs(z) > 2` is false, so the constant metric contributes no
anomaly flags — `is_anomaly` can only be set by one of the other
metrics — and `is_anomaly` itself stays a defined boolean. -/
theorem C5_constant_column (m : Metric) (df : List ARec) (c : ℚ)
    (h2 : 2 ≤ df.length) (hc : ∀ r ∈ df, metricVal m r = c) :
    ∃ out, calculate_z_scores df = some out ∧ out.length = df.length ∧
      ∀ z ∈ out, zsqOf m z = none ∧
        (z.is_anomaly = true → ∃ m2, m2 ≠ m ∧ exceedsTwo (zsqOf m2 z) = true) := by
  have hne : df ≠ [] := by
    intro e; subst e; simp at h2
  have hcol : ∀ y ∈ df.map (metricVal m), y = c := by
    intro y hy
    obtain ⟨r, hr, rfl⟩ := List.mem_map.mp hy
    exact hc r hr
  have hlen : 2 ≤ (df.map (metricVal m)).length := by
    simpa using h2
  refine ⟨df.map (zOne df), ?_, by simp, ?_⟩
  · unfold calculate_z_scores
    rw [if_neg (by simpa [List.isEmpty_iff] using hne)]
  · intro z hz
    obtain ⟨r, hr, rfl⟩ := List.mem_map.mp hz
    have hznone : zsqOf m (zOne df r) = none := by
      rw [zsqOf_zOne]
      exact zScoreSq_of_all_eq (metricVal m r) hlen hcol
    refine ⟨hznone, ?_⟩
    intro hanom
    have hany : ∃ m2 ∈ metrics,
        exceedsTwo (zScoreSq (metricVal m2 r) (df.map (metricVal m2))) = true := by
      simpa [zOne, List.any_eq_true] using hanom
    obtain ⟨m2, _, hex⟩ := hany
    refine ⟨m2, ?_, ?_⟩
    · intro e; subst e
      rw [← zsqOf_zOne df r m2, hznone] at hex
      simp [exceedsTwo] at hex
    · rw [zsqOf_zOne]
      exact hex

/-- Claim C5, witness: the amended theorem applied to a concrete
two-record batch with a constant diameter column. -/
theorem C5_witness :
    ∃ out, calculate_z_scores
      [{ diameter_mean_km := 1, miss_distance_km := 20,
         relative_velocity_km_s := 30, risk_score := 40 },
       { diameter_mean_km := 1, miss_distance_km := 40,
         relative_velocity_km_s := 50, risk_score := 60 }] = some out ∧
      out.length =
        ([{ diameter_mean_km := 1, miss_distance_km := 20,
            relative_velocity_km_s := 30, risk_score := 40 },
          { diameter_mean_km := 1, miss_distance_km := 40,
            relative_velocity_km_s := 50, risk_score := 60 }] : List ARec).length ∧
      ∀ z ∈ out, zsqOf Metric.diameter z = none ∧
        (z.is_anomaly = true →
          ∃ m2, m2 ≠ Metric.diameter ∧ exceedsTwo (zsqOf m2 z) = true) :=
  C5_constant_column Metric.diameter _ 1 (by norm_num) (by simp [metricVal])

theorem median?_isSome {l : List ℚ} (h : l ≠ []) : ∃ q, median? l = some q := by
  simp only [median?]
  have hlen : (l.mergeSort (fun a b => decide (a ≤ b))).length = l.length :=
    List.length_mergeSort l
  set s := l.mergeSort (fun a b => decide (a ≤ b)) with hs
  have hpos : 0 < s.length := by
    rw [hlen]; exact List.length_pos.mpr h
  by_cases hodd : s.length % 2 = 1
  · rw [if_pos hodd]
    have hlt : s.length / 2 < s.length := Nat.div_lt_self hpos (by norm_num)
    exact ⟨s[s.length / 2], List.getElem?_eq_getElem hlt⟩
  · rw [if_neg hodd]
    have hlt1 : s.length / 2 - 1 < s.length := by omega
    have hlt2 : s.length / 2 < s.length := Nat.div_lt_self hpos (by norm_num)
    rw [List.getElem?_eq_getElem hlt1, List.getElem?_eq_getElem hlt2]
    exact ⟨_, rfl⟩

/-- Claim C9: after Cleaning, every entry of a numeric column that was
missing or failed to parse is replaced (`fillna`) by the column's median
over the batch's valid values; a valid entry is untouched, a column with
at least one valid value is fully populated, and an all-missing column
has a missing median and is left unchanged. -/
theorem C9_clean_imputes_median (f : NumCol → List (Option ℚ)) (c : NumCol) :
    (∀ i : ℕ, (f c)[i]? = some none →
      (clean_dataframe f c)[i]? = some (median? ((f c).filterMap id))) ∧
    (∀ (i : ℕ) (x : ℚ), (f c)[i]? = some (some x) →
      (clean_dataframe f c)[i]? = some (some x)) ∧
    ((∃ v ∈ f c, v ≠ none) → ∀ v ∈ clean_dataframe f c, v ≠ none) ∧
    ((∀ v ∈ f c, v = none) → clean_dataframe f c = f c) := by
  refine ⟨?_, ?_, ?_, ?_⟩
  · intro i hi
    show (cleanColumn (f c))[i]? = _
    unfold cleanColumn
    rw [List.getElem?_map, hi]
    rfl
  · intro i x hi
    show (cleanColumn (f c))[i]? = _
    unfold cleanColumn
    rw [List.getElem?_map, hi]
    rfl
  · rintro ⟨v, hv, hvne⟩ w hw
    obtain ⟨x, rfl⟩ := Option.ne_none_iff_exists'.mp hvne
    have hw2 : w ∈ (f c).map (fun v => match v with
        | some y => some y
        | none => median? ((f c).filterMap id)) := hw
    obtain ⟨u, hu, rfl⟩ := List.mem_map.mp hw2
    have hne : (f c).filterMap id ≠ [] := by
      intro e
      have hx : x ∈ (f c).filterMap id := List.mem_filterMap.mpr ⟨some x, hv, rfl⟩
      rw [e] at hx
      cases hx
    obtain ⟨q, hq⟩ := median?_isSome hne
    cases u with
    | some y => simp
    | none => simp [hq]
  · intro hall
    have he : (f c).filterMap id = [] := by
      apply List.filterMap_eq_nil_iff.mpr
      intro a ha
      rw [hall a ha]; rfl
    show (f c).map (fun v => match v with
        | some y => some y
        | none => median? ((f c).filterMap id)) = f c
    rw [he]
    have hmednil : median? ([] : List ℚ) = none := by
      simp [median?]
    have hid : ∀ v ∈ f c, (match v with
        | some y => some y
        | none => median? ([] : List ℚ)) = id v := by
      intro v hv
      cases v with
      | some y => rfl
      | none => exact hmednil
    rw [List.map_congr_left hid, List.map_id]

/-- Claim C7: for a record of a non-empty batch whose three ranges are
non-degenerate, the 0.2 hazard bonus is added to the raw composite
before clipping, the clip is only from above at 1.0 (the score is the
`qmin` of the bumped composite and 1, with no lower clip), a hazardous
record at raw composite 0.9 ends at exactly 1.0, and a non-hazardous
record's score equals its raw composite. -/
theorem C7_hazard_bonus_before_clip (df : List CleanRec) (i : ℕ) (r : CleanRec)
    (hi : df[i]? = some r) (dlo dhi vlo vhi mlo mhi : ℚ)
    (hdlo : colMin? CleanRec.diameter_mean_km df = some dlo)
    (hdhi : colMax? CleanRec.diameter_mean_km df = some dhi)
    (hvlo : colMin? CleanRec.relative_velocity_km_s df = some vlo)
    (hvhi : colMax? CleanRec.relative_velocity_km_s df = some vhi)
    (hmlo : colMin? CleanRec.miss_distance_km df = some mlo)
    (hmhi : colMax? CleanRec.miss_distance_km df = some mhi)
    (hd : dlo ≠ dhi) (hv : vlo ≠ vhi) (hm : mlo ≠ mhi) :
    ∃ out s, calculate_risk_score df = some out ∧ out[i]? = some s ∧
      s.risk_score = some (qmin (rawOf dlo dhi vlo vhi mlo mhi r +
        (if r.is_potentially_hazardous then 1/5 else 0)) 1) ∧
      (r.is_potentially_hazardous = false →
        s.risk_score = some (rawOf dlo dhi vlo vhi mlo mhi r)) ∧
      (r.is_potentially_hazardous = true → rawOf dlo dhi vlo vhi mlo mhi r = 9/10 →
        s.risk_score = some 1) := by
  have hrmem : r ∈ df := List.getElem?_mem hi
  have hne : df ≠ [] := by
    intro e; subst e; cases hrmem
  have hout : calculate_risk_score df =
      some (df.map (scoreOne dlo dhi vlo vhi mlo mhi)) := by
    unfold calculate_risk_score
    rw [if_neg (by simpa [List.isEmpty_iff] using hne), hdlo, hdhi, hvlo, hvhi, hmlo, hmhi]
  have hdne : dhi - dlo ≠ 0 := sub_ne_zero.mpr (Ne.symm hd)
  have hvne : vhi - vlo ≠ 0 := sub_ne_zero.mpr (Ne.symm hv)
  have hmne : mhi - mlo ≠ 0 := sub_ne_zero.mpr (Ne.symm hm)
  have hscore : (scoreOne dlo dhi vlo vhi mlo mhi r).risk_score =
      some (qmin (rawOf dlo dhi vlo vhi mlo mhi r +
        (if r.is_potentially_hazardous then 1/5 else 0)) 1) := by
    unfold scoreOne normTerm qdiv? rawOf
    rw [if_neg hdne, if_neg hvne, if_neg hmne]
    cases hb : r.is_potentially_hazardous <;> simp [hb]
  -- bounds of the raw composite, for the no-lower-clip direction
  have hd1 : dlo ≤ r.diameter_mean_km :=
    listMin?_le hdlo _ (List.mem_map_of_mem _ hrmem)
  have hd2 : r.diameter_mean_km ≤ dhi :=
    le_listMax? hdhi _ (List.mem_map_of_mem _ hrmem)
  have hv1 : vlo ≤ r.relative_velocity_km_s :=
    listMin?_le hvlo _ (List.mem_map_of_mem _ hrmem)
  have hv2 : r.relative_velocity_km_s ≤ vhi :=
    le_listMax? hvhi _ (List.mem_map_of_mem _ hrmem)
  have hm1 : mlo ≤ r.miss_distance_km :=
    listMin?_le hmlo _ (List.mem_map_of_mem _ hrmem)
  have hraw_le : rawOf dlo dhi vlo vhi mlo mhi r ≤ 1 := by
    have hdlt : dlo < dhi := lt_of_le_of_ne (le_trans hd1 hd2) hd
    have hvlt : vlo < vhi := lt_of_le_of_ne (le_trans hv1 hv2) hv
    have hmlt : mlo < mhi := by
      rcases lt_or_le mlo mhi with h | h
      · exact h
      · have := le_listMax? hmhi _ (List.mem_map_of_mem CleanRec.miss_distance_km hrmem)
        exact absurd (le_antisymm h (le_trans hm1 this)) (Ne.symm hm)
    have ta1 : (r.diameter_mean_km - dlo) / (dhi - dlo) ≤ 1 := by
      rw [div_le_one (by linarith)]; linarith
    have tb1 : (r.relative_velocity_km_s - vlo) / (vhi - vlo) ≤ 1 := by
      rw [div_le_one (by linarith)]; linarith
    have tc0 : 0 ≤ (r.miss_distance_km - mlo) / (mhi - mlo) :=
      div_nonneg (by linarith) (by linarith)
    unfold rawOf
    linarith
  refine ⟨df.map (scoreOne dlo dhi vlo vhi mlo mhi),
    scoreOne dlo dhi vlo vhi mlo mhi r, hout, ?_, hscore, ?_, ?_⟩
  · rw [List.getElem?_map, hi]; rfl
  · intro hb
    rw [hscore, hb]
    simp only [Bool.false_eq_true, if_false, add_zero]
    congr 1
    unfold qmin
    rw [if_pos hraw_le]
  · intro hb hraw
    rw [hscore, hb, hraw]
    norm_num [qmin]

/-- Claim C7, witness: the theorem applied to the first record of the
specification's own end-to-end batch (three records with diameters
`{0.1, 0.5, 1.0}`, velocities `{5, 15, 30}`, miss distances
`{1e6, 5e6, 9e6}`, none hazardous). -/
theorem C7_witness :
    ∃ out s, calculate_risk_score sampleBatch = some out ∧
      out[0]? = some s ∧
      s.risk_score = some (qmin (rawOf (1/10) 1 5 30 1000000 9000000 sampleRec +
        (if sampleRec.is_potentially_hazardous then 1/5 else 0)) 1) ∧
      (sampleRec.is_potentially_hazardous = false →
        s.risk_score = some (rawOf (1/10) 1 5 30 1000000 9000000 sampleRec)) ∧
      (sampleRec.is_potentially_hazardous = true →
        rawOf (1/10) 1 5 30 1000000 9000000 sampleRec = 9/10 →
        s.risk_score = some 1) :=
  C7_hazard_bonus_before_clip sampleBatch 0 sampleRec rfl (1/10) 1 5 30 1000000 9000000
    (by norm_num [sampleBatch, sampleRec, colMin?, listMin?, qmin])
    (by norm_num [sampleBatch, sampleRec, colMax?, listMax?, qmax])
    (by norm_num [sampleBatch, sampleRec, colMin?, listMin?, qmin])
    (by norm_num [sampleBatch, sampleRec, colMax?, listMax?, qmax])
    (by norm_num [sampleBatch, sampleRec, colMin?, listMin?, qmin])
    (by norm_num [sampleBatch, sampleRec, colMax?, listMax?, qmax])
    (by norm_num) (by norm_num) (by norm_num)

theorem foldl_nmin_le_init (xs : List ℕ) (x : ℕ) : xs.foldl min x ≤ x := by
  induction xs generalizing x with
  | nil => exact le_refl x
  | cons z zs ih => exact le_trans (ih (min x z)) (min_le_left x z)

theorem foldl_nmin_le_mem (xs : List ℕ) (x : ℕ) :
    ∀ y ∈ xs, xs.foldl min x ≤ y := by
  induction xs generalizing x with
  | nil => intro y hy; cases hy
  | cons z zs ih =>
    intro y hy
    rcases List.mem_cons.mp hy with rfl | hy2
    · exact le_trans (foldl_nmin_le_init zs (min x y)) (min_le_right x y)
    · exact ih (min x z) y hy2

theorem dayMin?_le {l : List ℕ} {m : ℕ} (h : dayMin? l = some m) :
    ∀ y ∈ l, m ≤ y := by
  cases l with
  | nil => cases h
  | cons x xs =>
    intro y hy
    have hm : m = xs.foldl min x := by
      simpa [dayMin?] using h.symm
    subst hm
    rcases List.mem_cons.mp hy with rfl | hy2
    · exact foldl_nmin_le_init xs y
    · exact foldl_nmin_le_mem xs x y hy2

theorem init_le_foldl_nmax (xs : List ℕ) (x : ℕ) : x ≤ xs.foldl max x := by
  induction xs generalizing x with
  | nil => exact le_refl x
  | cons z zs ih => exact le_trans (le_max_left x z) (ih (max x z))

theorem mem_le_foldl_nmax (xs : List ℕ) (x : ℕ) :
    ∀ y ∈ xs, y ≤ xs.foldl max x := by
  induction xs generalizing x with
  | nil => intro y hy; cases hy
  | cons z zs ih =>
    intro y hy
    rcases List.mem_cons.mp hy with rfl | hy2
    · exact le_trans (le_max_right x y) (init_le_foldl_nmax zs (max x y))
    · exact ih (max x z) y hy2

theorem le_dayMax? {l : List ℕ} {m : ℕ} (h : dayMax? l = some m) :
    ∀ y ∈ l, y ≤ m := by
  cases l with
  | nil => cases h
  | cons x xs =>
    intro y hy
    have hm : m = xs.foldl max x := by
      simpa [dayMax?] using h.symm
    subst hm
    rcases List.mem_cons.mp hy with rfl | hy2
    · exact init_le_foldl_nmax xs y
    · exact mem_le_foldl_nmax xs x y hy2

/-- Claim C8: for a non-empty analyzed batch the daily table is dense and
date-sorted, with exactly one row per calendar day from the earliest to
the latest day inclusive (row `k` is day `min + k`); on a day inside the
span with no records both counts are 0 while the four mean-valued
columns are left as gaps (`none`), not zero. -/
theorem C8_dense_daily_table (df : List TRec) (lo hi : ℕ)
    (hlo : dayMin? (df.map TRec.date) = some lo)
    (hhi : dayMax? (df.map TRec.date) = some hi) :
    ∃ rows, generate_time_series_data df = some rows ∧
      lo ≤ hi ∧
      rows.length = hi - lo + 1 ∧
      (∀ k, k < rows.length → ∃ row, rows[k]? = some row ∧ row.day = lo + k) ∧
      (∀ row ∈ rows, (∀ r ∈ df, r.date ≠ row.day) →
        row.asteroid_count = 0 ∧ row.high_risk_count = 0 ∧
        row.avg_diameter_km = none ∧ row.avg_velocity_km_s = none ∧
        row.avg_miss_distance_km = none ∧ row.avg_risk_score = none) := by
  have hne : df ≠ [] := by
    intro e; subst e; simp [dayMin?] at hlo
  obtain ⟨r0, hr0⟩ := List.exists_mem_of_ne_nil df hne
  have hd0 : r0.date ∈ df.map TRec.date := List.mem_map_of_mem TRec.date hr0
  have hlohi : lo ≤ hi := le_trans (dayMin?_le hlo _ hd0) (le_dayMax? hhi _ hd0)
  have hout : generate_time_series_data df =
      some ((List.range (hi - lo + 1)).map (fun k => dailyRow df (lo + k))) := by
    unfold generate_time_series_data
    rw [if_neg (by simpa [List.isEmpty_iff] using hne), hlo, hhi]
  refine ⟨_, hout, hlohi, by simp, ?_, ?_⟩
  · intro k hk
    simp only [List.length_map, List.length_range] at hk
    refine ⟨dailyRow df (lo + k), ?_, rfl⟩
    rw [List.getElem?_map, List.getElem?_range hk]
    rfl
  · intro row hrow hempty
    obtain ⟨k, hkmem, rfl⟩ := List.mem_map.mp hrow
    have hfilter : df.filter (fun r => r.date == lo + k) = [] := by
      apply List.filter_eq_nil_iff.mpr
      intro a ha
      simpa using hempty a ha
    have hfilter2 : (df.filter (fun r => decide ((3 : ℚ)/5 < r.risk_score))).filter
        (fun r => r.date == lo + k) = [] := by
      apply List.filter_eq_nil_iff.mpr
      intro a ha
      simpa using hempty a (List.mem_of_mem_filter ha)
    refine ⟨?_, ?_, ?_, ?_, ?_, ?_⟩ <;>
      simp [dailyRow, hfilter, hfilter2, mean?]

/-- Claim C8, witness: the theorem applied to a concrete two-record batch
on days 10 and 12, whose three-day table has a row for the empty day 11. -/
theorem C8_witness :
    ∃ rows, generate_time_series_data sampleDays = some rows ∧
      10 ≤ 12 ∧
      rows.length = 12 - 10 + 1 ∧
      (∀ k, k < rows.length → ∃ row, rows[k]? = some row ∧ row.day = 10 + k) ∧
      (∀ row ∈ rows, (∀ r ∈ sampleDays, r.date ≠ row.day) →
        row.asteroid_count = 0 ∧ row.high_risk_count = 0 ∧
        row.avg_diameter_km = none ∧ row.avg_velocity_km_s = none ∧
        row.avg_miss_distance_km = none ∧ row.avg_risk_score = none) :=
  C8_dense_daily_table sampleDays 10 12 rfl rfl

end AstroScope
